import Mathlib

/-!
Verification development for `@swan-io/request` (src/Request.ts), a small
wrapper around the browser `fetch` API producing boxed `Future`/`Result`
values.  The executable model below is a shallow embedding of `Request.ts`:
pure response construction (`runInit`), the settlement callbacks of
`init().then(...)`, and an explicit event-trace semantics for the boxed
`Future` created by `Request.make`, faithful to boxed's single-assignment
future (resolve acts only on a pending future, cancel only on a pending
future and runs the cleanup returned by the initializer).
-/

namespace SwanRequest

/-- Embeds the `ResponseType` union of Request.ts (line 12): the caller-chosen
decoding mode. -/
inductive ResponseType where
  | text
  | arraybuffer
  | blob
  | json
deriving DecidableEq

/-- Embeds the `JsonValue` type of Request.ts (lines 4-9).  JSON numbers are
modelled as integers (their numeric nature is irrelevant to every claim);
`null` is a first-class variant, distinct from an absent value. -/
inductive JsonValue where
  | null
  | bool (b : Bool)
  | num (n : Int)
  | str (s : String)
  | arr (elems : List JsonValue)
  | obj (fields : List (String × JsonValue))

/-- Embeds the `Result` type of `@swan-io/boxed` (`Result.Ok` / `Result.Error`)
used by the library for outcomes. -/
inductive Result (A : Type) (E : Type) where
  | ok (value : A)
  | error (e : E)
deriving DecidableEq

/-- Embeds boxed `Result.isOk`: which arm a `Result` is in. -/
def Result.isOk : Result A E → Bool
  | .ok _ => true
  | .error _ => false

/-- Embeds the executor-level error classes of Request.ts: `NetworkError`
(line 23, carries the url) and `TimeoutError` (line 33, carries the url and
the optional configured timeout).  The human-readable `message` string is
omitted; the payload fields are kept. -/
inductive RequestError where
  | networkError (url : String)
  | timeoutError (url : String) (timeout : Option Nat)
deriving DecidableEq

/-- Exceptions with which the `init` promise (lines 116-162) can reject:
the `CanceledError` installed by the cancellation cleanup (line 180), the
`TimeoutError` installed by the timer (line 112), or any other host exception
(DNS failure, CORS rejection, ...), which the code does not distinguish. -/
inductive JsException where
  | canceledError
  | timeoutError (url : String) (timeout : Option Nat)
  | otherError
deriving DecidableEq

/-- Embeds the exported `Response<T>` record of Request.ts (lines 76-81):
the success payload handed to the caller. -/
structure Response (T : Type) where
  url : String
  status : Nat
  ok : Bool
  response : Option T
deriving DecidableEq

/-- Model of the WHATWG fetch `Response` object the transport hands back at
line 117.  `decode` models the body-reading methods (`arrayBuffer` / `blob` /
`json` / `text`, lines 137-146) selected by the requested `ResponseType`:
`.ok v` when the reader's promise fulfils with decoded value `v`, `.error ()`
when it rejects (malformed JSON, empty body read as JSON, aborted read, ...).
-/
structure FetchResponse (T : Type) where
  status : Nat
  decode : ResponseType → Except Unit T

/-- Platform guarantee of WHATWG fetch, relied on at line 153: `res.ok` is
defined by the host as "status in the range 200 to 299 inclusive". -/
def FetchResponse.ok (r : FetchResponse T) : Bool :=
  decide (200 ≤ r.status ∧ r.status < 300)

/-- Embeds the payload block of `init` (lines 134-150): an if-chain over the
closed `ResponseType` enum inside a single try/catch.  Exactly one branch of
the chain runs, and a rejection of the selected body reader is caught and
turns the payload into `Option.none`. -/
def decodePayload (type : ResponseType) (res : FetchResponse T) : Option T :=
  match res.decode type with
  | .ok v => Option.some v
  | .error _ => Option.none

/-- Embeds lines 152-161 of `init`: the `Response` record built after the
fetch fulfilled, copying `res.status` and `res.ok` and wrapping the decoded
payload. -/
def runInit (url : String) (type : ResponseType) (res : FetchResponse T) : Response T :=
  { url := url, status := res.status, ok := res.ok, response := decodePayload type res }

/-- Embeds lines 116-162 as a whole: `init()` fulfils with the built
`Response` when the awaited fetch fulfils, and rejects with the same
exception when the fetch rejects (the try/catch around the body readers never
lets a decode rejection escape `init`). -/
def initOutcome (url : String) (type : ResponseType) :
    Except JsException (FetchResponse T) → Except JsException (Response T)
  | .ok res => .ok (runInit url type res)
  | .error e => .error e

/-- Embeds the two callbacks of `init().then(...)` (lines 164-177):
fulfilment resolves `Result.Ok response`; a `CanceledError` rejection is
swallowed (no call to `resolve`); a `TimeoutError` rejection resolves
`Result.Error` with that same error object; any other rejection resolves
`Result.Error (NetworkError url)`.  `Option.none` means `resolve` is never
invoked for this settlement. -/
def handleSettlement (url : String) :
    Except JsException (Response T) → Option (Result (Response T) RequestError)
  | .ok response => Option.some (.ok response)
  | .error .canceledError => Option.none
  | .error (.timeoutError u t) => Option.some (.error (.timeoutError u t))
  | .error .otherError => Option.some (.error (.networkError url))

/-- State of a boxed `Future`: pending, resolved with a value, or cancelled.
Matches the `_state.tag` values of `@swan-io/boxed` futures. -/
inductive FutureState (α : Type) where
  | pending
  | resolved (v : α)
  | cancelled
deriving DecidableEq

/-- Events that can reach one request execution: the settlement of the
`init()` promise (carrying the outcome of the awaited fetch), or the caller
invoking `cancel()` on the future returned by `Request.make`. -/
inductive Event (T : Type) where
  | settle (fetchOutcome : Except JsException (FetchResponse T))
  | cancel

/-- Observable state of one `Request.make` execution: the boxed future's
state, whether the `init()` promise has already settled (a JS promise settles
at most once), whether `controller.abort` was called by the cancellation
cleanup (line 180), and how many times the future actually transitioned to
resolved. -/
structure ExecState (T : Type) where
  future : FutureState (Result (Response T) RequestError)
  promiseSettled : Bool
  aborted : Bool
  resolutions : Nat

/-- State right after `Future.make` runs its initializer: future pending,
promise unsettled, no abort issued, no resolution yet. -/
def initState : ExecState T :=
  { future := .pending, promiseSettled := false, aborted := false, resolutions := 0 }

/-- Embeds boxed future resolution: `resolve` only acts on a pending future;
resolving a cancelled or already-resolved future is a no-op. -/
def deliverResolve (s : ExecState T) (v : Result (Response T) RequestError) : ExecState T :=
  match s.future with
  | .pending => { s with future := .resolved v, resolutions := s.resolutions + 1 }
  | _ => s

/-- One step of the execution.  `cancel` embeds boxed `Future.cancel`: on a
pending future it moves to cancelled and runs the cleanup of lines 179-181,
which calls `controller.abort(new CanceledError())`; on a settled or already
cancelled future it is a no-op and the cleanup does not run.  `settle` embeds
the one-shot settlement of the `init()` promise feeding the `.then` callbacks
of lines 164-177; a second settlement event is inert. -/
def step (url : String) (type : ResponseType) (s : ExecState T) : Event T → ExecState T
  | .cancel =>
    match s.future with
    | .pending => { s with future := .cancelled, aborted := true }
    | _ => s
  | .settle fetchOutcome =>
    if s.promiseSettled then s
    else
      match handleSettlement url (initOutcome url type fetchOutcome) with
      | Option.none => { s with promiseSettled := true }
      | Option.some v => deliverResolve { s with promiseSettled := true } v

/-- Run a trace of events from a given state. -/
def runFrom (url : String) (type : ResponseType) (s : ExecState T)
    (events : List (Event T)) : ExecState T :=
  events.foldl (step url type) s

/-- Run a trace of events for one `Request.make url type` execution from the
initial state. -/
def run (url : String) (type : ResponseType) (events : List (Event T)) : ExecState T :=
  runFrom url type initState events

/-- Whether a trace contains a settlement of the `init()` promise. -/
def hasSettle : List (Event T) → Bool
  | [] => false
  | Event.settle _ :: _ => true
  | Event.cancel :: rest => hasSettle rest

/-- Whether a fetch settlement is a rejection with the `CanceledError`
object. -/
def settleIsCanceled : Except JsException (FetchResponse T) → Bool
  | .error .canceledError => true
  | _ => false

/-- Trace well-formedness: the fetch promise rejects with a `CanceledError`
only because the cancellation cleanup (line 180) aborted the controller with
one, so a canceled rejection can appear in a trace only after a cancel
event. -/
def wellFormedFrom (cancelSeen : Bool) : List (Event T) → Bool
  | [] => true
  | Event.cancel :: rest => wellFormedFrom true rest
  | Event.settle s :: rest => (!settleIsCanceled s || cancelSeen) && wellFormedFrom cancelSeen rest

/-- Embeds the timeout arming condition of line 110: `if (timeout)` is a JS
truthiness test, false both when the field is absent and when it is `0`. -/
def armsTimeout : Option Nat → Bool
  | Option.none => false
  | Option.some t => t != 0

/-- Embeds lines 111-113: when the armed timer fires it calls
`controller.abort(new TimeoutError(url, timeout))`, so a still-pending fetch
rejects with exactly that `TimeoutError`. -/
def timeoutFires (url : String) (t : Nat) : Event T :=
  .settle (.error (.timeoutError url (Option.some t)))

/-- Embeds the `BadStatusError` class (lines 185-197): url, status, and the
possibly-absent decoded body (`response.response.toUndefined()`, where
JavaScript `undefined` is modelled as `Option.none`).  The `message` string is
omitted. -/
structure BadStatusError (T : Type) where
  url : String
  status : Nat
  response : Option T
deriving DecidableEq

/-- Embeds `badStatusToError` (lines 199-211): pass the response through as
`Ok` when its `ok` field is true, otherwise build a `BadStatusError` from its
url, status and optional body. -/
def badStatusToError (response : Response T) : Result (Response T) (BadStatusError T) :=
  if response.ok then .ok response
  else .error { url := response.url, status := response.status, response := response.response }

/-- Embeds the `EmptyResponseError` class (lines 213-221): carries the url;
the `message` string is omitted. -/
structure EmptyResponseError where
  url : String
deriving DecidableEq

/-- Embeds boxed `Option.toResult`: `Some v` becomes `Ok v`, `None` becomes
`Error e`. -/
def toResult (o : Option A) (e : E) : Result A E :=
  match o with
  | Option.some v => .ok v
  | Option.none => .error e

/-- Embeds `emptyToError` (lines 223-225). -/
def emptyToError (response : Response T) : Result T EmptyResponseError :=
  toResult response.response (EmptyResponseError.mk response.url)

/-- Number of resolutions a future state witnesses: 1 when resolved, 0
otherwise. -/
def futureWeight : FutureState α → Nat
  | .resolved _ => 1
  | _ => 0

/-- Execution invariant: the resolution counter matches the future state, and
a cancelled future implies the abort cleanup ran. -/
def Inv (s : ExecState T) : Prop :=
  s.resolutions = futureWeight s.future
  ∧ (s.future = FutureState.cancelled → s.aborted = true)

theorem inv_initState : Inv (initState : ExecState T) := by
  constructor <;> simp [initState, futureWeight]

theorem step_resolved (url : String) (type : ResponseType) (s : ExecState T) (e : Event T)
    (v : Result (Response T) RequestError) (h : s.future = FutureState.resolved v) :
    (step url type s e).future = FutureState.resolved v := by
  cases e with
  | cancel => simp [step, h]
  | settle f =>
    cases hp : s.promiseSettled with
    | true => simp [step, hp, h]
    | false =>
      cases hh : handleSettlement url (initOutcome url type f) with
      | none => simp [step, hp, hh, h]
      | some w => simp [step, hp, hh, deliverResolve, h]

theorem runFrom_resolved (url : String) (type : ResponseType) (events : List (Event T))
    (s : ExecState T) (v : Result (Response T) RequestError)
    (h : s.future = FutureState.resolved v) :
    (runFrom url type s events).future = FutureState.resolved v := by
  induction events generalizing s with
  | nil => exact h
  | cons e rest ih => exact ih (step url type s e) (step_resolved url type s e v h)

theorem step_cancelled (url : String) (type : ResponseType) (s : ExecState T) (e : Event T)
    (h : s.future = FutureState.cancelled) :
    (step url type s e).future = FutureState.cancelled := by
  cases e with
  | cancel => simp [step, h]
  | settle f =>
    cases hp : s.promiseSettled with
    | true => simp [step, hp, h]
    | false =>
      cases hh : handleSettlement url (initOutcome url type f) with
      | none => simp [step, hp, hh, h]
      | some w => simp [step, hp, hh, deliverResolve, h]

theorem runFrom_cancelled (url : String) (type : ResponseType) (events : List (Event T))
    (s : ExecState T) (h : s.future = FutureState.cancelled) :
    (runFrom url type s events).future = FutureState.cancelled := by
  induction events generalizing s with
  | nil => exact h
  | cons e rest ih => exact ih (step url type s e) (step_cancelled url type s e h)

theorem step_aborted (url : String) (type : ResponseType) (s : ExecState T) (e : Event T)
    (h : s.aborted = true) : (step url type s e).aborted = true := by
  cases e with
  | cancel => cases hf : s.future <;> simp [step, hf, h]
  | settle f =>
    cases hp : s.promiseSettled with
    | true => simpa [step, hp] using h
    | false =>
      cases hh : handleSettlement url (initOutcome url type f) with
      | none => simpa [step, hp, hh] using h
      | some w =>
        cases hf : s.future <;> simp [step, hp, hh, deliverResolve, hf, h]

theorem runFrom_aborted (url : String) (type : ResponseType) (events : List (Event T))
    (s : ExecState T) (h : s.aborted = true) :
    (runFrom url type s events).aborted = true := by
  induction events generalizing s with
  | nil => exact h
  | cons e rest ih => exact ih (step url type s e) (step_aborted url type s e h)

theorem inv_step (url : String) (type : ResponseType) (s : ExecState T) (e : Event T)
    (h : Inv s) : Inv (step url type s e) := by
  obtain ⟨fut, ps, ab, rc⟩ := s
  obtain ⟨h1, h2⟩ := h
  cases e with
  | cancel =>
    cases fut with
    | pending =>
      refine ⟨?_, fun _ => rfl⟩
      simpa [step, futureWeight] using h1
    | resolved v => exact ⟨h1, h2⟩
    | cancelled => exact ⟨h1, h2⟩
  | settle f =>
    cases ps with
    | true => exact ⟨h1, h2⟩
    | false =>
      cases hh : handleSettlement url (initOutcome url type f) with
      | none =>
        have hs : step url type (ExecState.mk fut false ab rc) (Event.settle f)
            = ExecState.mk fut true ab rc := by
          simp [step, hh]
        rw [hs]; exact ⟨h1, h2⟩
      | some v =>
        have hs : step url type (ExecState.mk fut false ab rc) (Event.settle f)
            = deliverResolve (ExecState.mk fut true ab rc) v := by
          simp [step, hh]
        rw [hs]
        cases fut with
        | pending =>
          refine ⟨?_, ?_⟩
          · simp [futureWeight] at h1
            simp [deliverResolve, futureWeight, h1]
          · intro hcc
            simp [deliverResolve] at hcc
        | resolved w => exact ⟨h1, h2⟩
        | cancelled => exact ⟨h1, h2⟩

theorem inv_runFrom (url : String) (type : ResponseType) (events : List (Event T))
    (s : ExecState T) (h : Inv s) : Inv (runFrom url type s events) := by
  induction events generalizing s with
  | nil => exact h
  | cons e rest ih => exact ih (step url type s e) (inv_step url type s e h)

theorem runFrom_noSettle (url : String) (type : ResponseType) (events : List (Event T))
    (s : ExecState T) (hn : hasSettle events = false)
    (hf : s.future = FutureState.pending ∨ s.future = FutureState.cancelled) :
    (runFrom url type s events).future = FutureState.pending
    ∨ (runFrom url type s events).future = FutureState.cancelled := by
  induction events generalizing s with
  | nil => exact hf
  | cons e rest ih =>
    cases e with
    | settle f => simp [hasSettle] at hn
    | cancel =>
      have hn' : hasSettle (rest : List (Event T)) = false := by
        simpa [hasSettle] using hn
      have hf' : (step url type s Event.cancel).future = FutureState.pending
          ∨ (step url type s Event.cancel).future = FutureState.cancelled := by
        rcases hf with h | h
        · exact Or.inr (by simp [step, h])
        · exact Or.inr (by simp [step, h])
      exact ih (step url type s Event.cancel) hn' hf'

theorem handleSettlement_isSome (url : String) (type : ResponseType)
    (stl : Except JsException (FetchResponse T)) (h : settleIsCanceled stl = false) :
    ∃ v, handleSettlement url (initOutcome url type stl) = Option.some v := by
  cases stl with
  | ok res => exact ⟨_, rfl⟩
  | error e =>
    cases e with
    | canceledError => simp [settleIsCanceled] at h
    | timeoutError u t => exact ⟨_, rfl⟩
    | otherError => exact ⟨_, rfl⟩

/-- Sample transport response: status 200, every decode succeeds with `5`. -/
def resDecodeOk : FetchResponse Nat := ⟨200, fun _ => Except.ok 5⟩

/-- Sample transport response: status 200, every decode rejects (e.g.
malformed JSON body read with mode json). -/
def resDecodeErr : FetchResponse Nat := ⟨200, fun _ => Except.error ()⟩

/-- Sample transport response: status 200, decoding yields JSON `null` — a
present but falsy value. -/
def resJsonNull : FetchResponse JsonValue := ⟨200, fun _ => Except.ok JsonValue.null⟩

/-- Sample settlement event: the fetch fulfils with `resDecodeOk`. -/
def evOk : Event Nat := Event.settle (Except.ok resDecodeOk)

/-- Sample caller-visible response with a truthful `ok` and a present body. -/
def respOkTrue : Response Nat :=
  { url := "u", status := 200, ok := true, response := Option.some 5 }

/-- Sample caller-visible response with `ok` false and an absent body. -/
def respOkFalse : Response Nat :=
  { url := "u", status := 404, ok := false, response := Option.none }

/-- Sample caller-visible response whose `ok` field disagrees with its
status. -/
def respLying : Response Nat :=
  { url := "u", status := 500, ok := true, response := Option.none }

/-- Claim C1: for every completed transfer the success outcome's `ok` field
equals the boolean test 200 ≤ status < 300 on the transport status, the
status is copied unchanged, and `ok` is determined by the status alone —
independent of the decoding mode and of the body content. -/
theorem C1_ok_equals_status_range (url : String) (type : ResponseType)
    (res : FetchResponse T) :
    (runInit url type res).ok = decide (200 ≤ res.status ∧ res.status < 300)
    ∧ (runInit url type res).status = res.status
    ∧ (∀ (type2 : ResponseType) (res2 : FetchResponse T), res2.status = res.status →
        (runInit url type2 res2).ok = (runInit url type res).ok) := by
  refine ⟨rfl, rfl, ?_⟩
  intro type2 res2 h
  simp [runInit, FetchResponse.ok, h]

theorem C1_witness :
    (runInit "u" ResponseType.json resDecodeOk).ok
        = decide (200 ≤ resDecodeOk.status ∧ resDecodeOk.status < 300)
    ∧ (runInit "u" ResponseType.text resDecodeErr).ok
        = (runInit "u" ResponseType.json resDecodeOk).ok :=
  ⟨(C1_ok_equals_status_range "u" ResponseType.json resDecodeOk).1,
   (C1_ok_equals_status_range "u" ResponseType.json resDecodeOk).2.2
      ResponseType.text resDecodeErr rfl⟩

/-- Claim C2: over any event trace a request resolves at most once; in a
well-formed trace containing a settlement of the `init` promise it resolves
exactly once unless a cancel occurred; and once a terminal branch has
resolved the future, late-arriving events leave the resolved value unchanged
— no second resolution. -/
theorem C2_exactly_one_terminal (url : String) (type : ResponseType)
    (events : List (Event T)) :
    (run url type events).resolutions ≤ 1
    ∧ (wellFormedFrom false events = true → hasSettle events = true →
        ((run url type events).resolutions = 1 ∨ Event.cancel ∈ events))
    ∧ (∀ (pre suf : List (Event T)) (v : Result (Response T) RequestError),
        events = pre ++ suf → (run url type pre).future = FutureState.resolved v →
        (run url type events).future = FutureState.resolved v) := by
  have hinv : Inv (run url type events) :=
    inv_runFrom url type events initState inv_initState
  refine ⟨?_, ?_, ?_⟩
  · rw [hinv.1]
    cases (run url type events).future <;> simp [futureWeight]
  · intro hwf hs
    cases events with
    | nil => simp [hasSettle] at hs
    | cons e rest =>
      cases e with
      | cancel => exact Or.inr (List.mem_cons_self _ _)
      | settle stl =>
        left
        cases hnc : settleIsCanceled stl with
        | true => simp [wellFormedFrom, hnc] at hwf
        | false =>
          obtain ⟨v, hv⟩ := handleSettlement_isSome url type stl hnc
          have hstep : (step url type initState (Event.settle stl)).future
              = FutureState.resolved v := by
            simp [step, initState, hv, deliverResolve]
          have hres : (run url type (Event.settle stl :: rest)).future
              = FutureState.resolved v :=
            runFrom_resolved url type rest (step url type initState (Event.settle stl)) v hstep
          rw [hinv.1, hres]
          rfl
  · intro pre suf v hsplit hpre
    subst hsplit
    have hr : run url type (pre ++ suf) = runFrom url type (run url type pre) suf := by
      simp [run, runFrom, List.foldl_append]
    rw [hr]
    exact runFrom_resolved url type suf (run url type pre) v hpre

theorem C2_witness :
    ((run "u" ResponseType.text [evOk]).resolutions = 1 ∨ Event.cancel ∈ [evOk])
    ∧ (run "u" ResponseType.text ([evOk] ++ [Event.cancel])).future
        = FutureState.resolved (Result.ok (runInit "u" ResponseType.text resDecodeOk)) :=
  ⟨(C2_exactly_one_terminal "u" ResponseType.text [evOk]).2.1 rfl rfl,
   (C2_exactly_one_terminal "u" ResponseType.text ([evOk] ++ [Event.cancel])).2.2
      [evOk] [Event.cancel]
      (Result.ok (runInit "u" ResponseType.text resDecodeOk)) rfl rfl⟩

/-- Claim C3: when the transfer completes but the selected body decode fails,
the execution resolves with a success result whose body is `Option.none` and
whose status and `ok` come from the real transport response; the decode
failure is never surfaced as any error result. -/
theorem C3_decode_failure_is_success (url : String) (type : ResponseType)
    (res : FetchResponse T) (h : res.decode type = Except.error ()) :
    (run url type [Event.settle (Except.ok res)]).future
      = FutureState.resolved (Result.ok
          { url := url, status := res.status, ok := res.ok, response := Option.none })
    ∧ (∀ e : RequestError,
        (run url type [Event.settle (Except.ok res)]).future
          ≠ FutureState.resolved (Result.error e)) := by
  have hmain : (run url type [Event.settle (Except.ok res)]).future
      = FutureState.resolved (Result.ok
          { url := url, status := res.status, ok := res.ok, response := Option.none }) := by
    simp [run, runFrom, step, initState, handleSettlement, initOutcome, deliverResolve,
      runInit, decodePayload, h]
  refine ⟨hmain, ?_⟩
  intro e hc
  rw [hmain] at hc
  simp at hc

theorem C3_witness :
    (run "u" ResponseType.json [Event.settle (Except.ok resDecodeErr)]).future
      = FutureState.resolved (Result.ok
          { url := "u", status := resDecodeErr.status, ok := resDecodeErr.ok,
            response := Option.none }) :=
  (C3_decode_failure_is_success "u" ResponseType.json resDecodeErr rfl).1

/-- Claim C4: canceling before any terminal settlement issues the abort
instruction to the transport and the future never resolves with any value,
whatever events arrive later; the internal CanceledError rejection is
swallowed by the settlement handler and never delivered as a resolved
value. -/
theorem C4_cancel_before_terminal (url : String) (type : ResponseType)
    (pre post : List (Event T)) (hn : hasSettle pre = false) :
    (run url type (pre ++ Event.cancel :: post)).aborted = true
    ∧ (∀ v, (run url type (pre ++ Event.cancel :: post)).future ≠ FutureState.resolved v)
    ∧ handleSettlement url
        (Except.error JsException.canceledError : Except JsException (Response T))
        = Option.none := by
  have hsplit : run url type (pre ++ Event.cancel :: post)
      = runFrom url type
          (step url type (runFrom url type initState pre) Event.cancel) post := by
    simp [run, runFrom, List.foldl_append]
  have hf1 := runFrom_noSettle url type pre initState hn (Or.inl rfl)
  have hinv1 : Inv (runFrom url type initState pre) :=
    inv_runFrom url type pre initState inv_initState
  have hc : (step url type (runFrom url type initState pre) Event.cancel).future
        = FutureState.cancelled
      ∧ (step url type (runFrom url type initState pre) Event.cancel).aborted = true := by
    rcases hf1 with h | h
    · constructor <;> simp [step, h]
    · have hab := hinv1.2 h
      constructor <;> simp [step, h, hab]
  have hcancelled := runFrom_cancelled url type post
    (step url type (runFrom url type initState pre) Event.cancel) hc.1
  have haborted := runFrom_aborted url type post
    (step url type (runFrom url type initState pre) Event.cancel) hc.2
  refine ⟨?_, ?_, rfl⟩
  · rw [hsplit]
    exact haborted
  · intro v hv
    rw [hsplit, hcancelled] at hv
    simp at hv

theorem C4_witness :
    (run "u" ResponseType.text ([] ++ Event.cancel :: ([] : List (Event Nat)))).aborted = true
    ∧ (run "u" ResponseType.text ([] ++ Event.cancel :: ([] : List (Event Nat)))).future
        ≠ FutureState.resolved (Result.ok (runInit "u" ResponseType.text resDecodeOk)) :=
  ⟨(C4_cancel_before_terminal "u" ResponseType.text [] [] rfl).1,
   (C4_cancel_before_terminal "u" ResponseType.text [] [] rfl).2.1
      (Result.ok (runInit "u" ResponseType.text resDecodeOk))⟩

/-- Claim C5 as stated is false on the code: with a configured timeout of 0,
the JS truthiness test `if (timeout)` at line 110 is false, so no timeout
mechanism is armed for that request. -/
theorem C5_counterexample : armsTimeout (Option.some 0) = false := rfl

/-- Claim C5 (amended): for every configured positive timeout a timeout
mechanism scoped to the request is armed (a configured timeout of 0 is falsy
at line 110 and arms nothing, behaving as "no timeout"), and when the armed
timer fires before the transport completes, the future resolves with an error
result `TimeoutError` carrying the request url and the configured timeout
value. -/
theorem C5_timeout_resolves (t : Nat) (ht : t ≠ 0) (url : String) (type : ResponseType)
    (post : List (Event T)) :
    armsTimeout (Option.some t) = true
    ∧ (run url type ((timeoutFires url t : Event T) :: post)).future
        = FutureState.resolved
            (Result.error (RequestError.timeoutError url (Option.some t))) := by
  constructor
  · cases t with
    | zero => exact absurd rfl ht
    | succ n => rfl
  · have hstep : (step url type initState (timeoutFires url t : Event T)).future
        = FutureState.resolved
            (Result.error (RequestError.timeoutError url (Option.some t))) := by
      simp [step, initState, timeoutFires, handleSettlement, initOutcome, deliverResolve]
    exact runFrom_resolved url type post
      (step url type initState (timeoutFires url t : Event T)) _ hstep

theorem C5_witness :
    armsTimeout (Option.some 5) = true
    ∧ (run "u" ResponseType.text ((timeoutFires "u" 5 : Event Nat) :: [])).future
        = FutureState.resolved
            (Result.error (RequestError.timeoutError "u" (Option.some 5))) :=
  C5_timeout_resolves 5 (by decide) "u" ResponseType.text ([] : List (Event Nat))

/-- Claim C6: cancellation invoked after the transport transfer succeeded but
before the terminal-success handler has run still prevents resolution: the
handler does fire and computes its resolution (decode finishes), but the
cancelled future stays cancelled. -/
theorem C6_cancel_during_decode (url : String) (type : ResponseType)
    (res : FetchResponse T) (pre post : List (Event T)) (hn : hasSettle pre = false) :
    (run url type (pre ++ Event.cancel :: Event.settle (Except.ok res) :: post)).future
      = FutureState.cancelled
    ∧ handleSettlement url (initOutcome url type (Except.ok res))
        = Option.some (Result.ok (runInit url type res)) := by
  refine ⟨?_, rfl⟩
  have hf1 := runFrom_noSettle url type pre initState hn (Or.inl rfl)
  have hc : (step url type (runFrom url type initState pre) Event.cancel).future
      = FutureState.cancelled := by
    rcases hf1 with h | h <;> simp [step, h]
  have hc2 := step_cancelled url type
    (step url type (runFrom url type initState pre) Event.cancel)
    (Event.settle (Except.ok res)) hc
  have hc3 := runFrom_cancelled url type post _ hc2
  have hsplit : run url type (pre ++ Event.cancel :: Event.settle (Except.ok res) :: post)
      = runFrom url type
          (step url type
            (step url type (runFrom url type initState pre) Event.cancel)
            (Event.settle (Except.ok res))) post := by
    simp [run, runFrom, List.foldl_append]
  rw [hsplit]
  exact hc3

theorem C6_witness :
    (run "u" ResponseType.text (([] : List (Event Nat)) ++ Event.cancel ::
        Event.settle (Except.ok resDecodeOk) :: [])).future = FutureState.cancelled :=
  (C6_cancel_during_decode "u" ResponseType.text resDecodeOk [] [] rfl).1

/-- Claim C7: `badStatusToError` passes the outcome through unchanged as
success when its `ok` field is true, and otherwise produces a
`BadStatusError` carrying the outcome's url, its status, and its possibly
absent decoded body; as a plain function of its argument it is pure,
stateless and synchronous. -/
theorem C7_badStatusToError_spec (r : Response T) :
    (r.ok = true → badStatusToError r = Result.ok r)
    ∧ (r.ok = false → badStatusToError r = Result.error
        { url := r.url, status := r.status, response := r.response }) := by
  constructor <;> intro h <;> simp [badStatusToError, h]

theorem C7_witness :
    badStatusToError respOkTrue = Result.ok respOkTrue
    ∧ badStatusToError respOkFalse = Result.error
        { url := respOkFalse.url, status := respOkFalse.status,
          response := respOkFalse.response } :=
  ⟨(C7_badStatusToError_spec respOkTrue).1 rfl,
   (C7_badStatusToError_spec respOkFalse).2 rfl⟩

/-- Claim C8: `emptyToError` returns success with the unwrapped body value
when the decoded body is present, and an `EmptyResponseError` carrying the
outcome's url when the body is absent. -/
theorem C8_emptyToError_spec (r : Response T) :
    (∀ v, r.response = Option.some v → emptyToError r = Result.ok v)
    ∧ (r.response = Option.none →
        emptyToError r = Result.error (EmptyResponseError.mk r.url)) := by
  constructor
  · intro v h
    simp [emptyToError, toResult, h]
  · intro h
    simp [emptyToError, toResult, h]

theorem C8_witness :
    emptyToError respOkTrue = Result.ok 5
    ∧ emptyToError respOkFalse = Result.error (EmptyResponseError.mk respOkFalse.url) :=
  ⟨(C8_emptyToError_spec respOkTrue).1 5 rfl,
   (C8_emptyToError_spec respOkFalse).2 rfl⟩

/-- Claim C9: in the success outcome the decoded body is `Option.none`
exactly when the transport's decode rejects, and a present decoded value —
even a falsy one such as JSON null — is wrapped as `Option.some` and is
distinct from the first-class absent state. -/
theorem C9_absent_iff_decode_fails (url : String) (type : ResponseType)
    (res : FetchResponse T) :
    ((runInit url type res).response = Option.none ↔ res.decode type = Except.error ())
    ∧ (∀ v, res.decode type = Except.ok v →
        (runInit url type res).response = Option.some v
        ∧ (runInit url type res).response ≠ Option.none) := by
  constructor
  · cases h : res.decode type with
    | ok v => simp [runInit, decodePayload, h]
    | error e =>
      cases e
      simp [runInit, decodePayload, h]
  · intro v h
    simp [runInit, decodePayload, h]

theorem C9_witness :
    (runInit "u" ResponseType.json resJsonNull).response = Option.some JsonValue.null
    ∧ (runInit "u" ResponseType.json resJsonNull).response ≠ Option.none :=
  (C9_absent_iff_decode_fails "u" ResponseType.json resJsonNull).2 JsonValue.null rfl

/-- Claim C10: the branch taken by `badStatusToError` depends only on the
outcome's `ok` field — any two outcomes with the same `ok` value take the
same branch, even when `ok` disagrees with the status field; the status is
never re-inspected for the decision. -/
theorem C10_branch_depends_only_on_ok (r1 r2 : Response T) (h : r1.ok = r2.ok) :
    (badStatusToError r1).isOk = (badStatusToError r2).isOk
    ∧ (badStatusToError r1).isOk = r1.ok := by
  have key : ∀ r : Response T, (badStatusToError r).isOk = r.ok := by
    intro r
    cases hr : r.ok <;> simp [badStatusToError, Result.isOk, hr]
  refine ⟨?_, key r1⟩
  rw [key r1, key r2, h]

theorem C10_witness :
    (badStatusToError respLying).isOk = (badStatusToError respOkTrue).isOk
    ∧ (badStatusToError respLying).isOk = respLying.ok :=
  C10_branch_depends_only_on_ok respLying respOkTrue rfl

end SwanRequest
